import Mathlib

/-!
# Verification of `utils::timer` (src/Utils.h)

A shallow embedding of the single function of the repository, `utils::timer`,
and theorems about what it writes to standard output.

The function reads a clock, runs the caller's callable, reads the clock again
and, depending on the format string, writes a report line to `std::cout`.
The embedding threads an explicit `World` through these steps.
-/

namespace utils

/-- Program state visible to `timer`: the reading of
`std::chrono::high_resolution_clock` (in nanosecond ticks, the period of that
clock in libstdc++, libc++ and MSVC), the characters written to `std::cout` so
far, and the rest of the caller's state, which only the callable touches.
The field `clock` is the tick counter of the clock; a timestamp read from it
is its 64-bit signed representation (see `World.now`). The stream is taken to
be in good state with its default formatting flags when `timer` writes to it. -/
structure World (σ : Type) where
  clock : Int
  cout : String
  state : σ

/-- Reduction of an integer to the range of `long long`, the 64-bit signed
representation of a tick count: the result lies in `[-2^63, 2^63)` and differs
from `x` by a multiple of `2^64`. -/
def wrap64 (x : Int) : Int :=
  (x + 9223372036854775808) % 18446744073709551616 - 9223372036854775808

/-- Reading `std::chrono::high_resolution_clock::now()`: the tick count of the
time point, a 64-bit signed integer. -/
def World.now {σ : Type} (w : World σ) : Int := wrap64 w.clock

/-- The subtraction `end_time - start_time` of two time points: the difference
of their tick counts in 64-bit signed arithmetic, which wraps around when the
mathematical difference is not representable. -/
def sub64 (end_time start_time : Int) : Int :=
  wrap64 (end_time - start_time)

/-- Inserting a string with `std::cout << s`. -/
def World.ins {σ : Type} (w : World σ) (s : String) : World σ :=
  { w with cout := w.cout ++ s }

/-- Inserting a `long long` with `std::cout << d`: decimal digits, with a
leading minus sign for a negative value. -/
def World.insInt {σ : Type} (w : World σ) (d : Int) : World σ :=
  w.ins (toString d)

/-- Inserting `std::endl`: a newline character (the flush changes no content). -/
def World.endl {σ : Type} (w : World σ) : World σ :=
  w.ins "\n"

/-- Number of nanosecond ticks in one `std::chrono::seconds`. -/
def seconds : Int := 1000000000

/-- Number of nanosecond ticks in one `std::chrono::milliseconds`. -/
def milliseconds : Int := 1000000

/-- Number of nanosecond ticks in one `std::chrono::nanoseconds`. -/
def nanoseconds : Int := 1

/-- Conversion `std::chrono::duration_cast<To>(d).count()` of a nanosecond
duration `d` to the unit of `period` ticks: integer division truncating toward
zero, as C++ integer division does. -/
def duration_cast (period : Int) (d : Int) : Int :=
  Int.tdiv d period

/-- The callable `std::function<void()>`: it transforms the world and either
returns normally or throws an exception of type `ε`. State changes made before
a throw persist. -/
abbrev Func (ε σ : Type) : Type := World σ → Except ε Unit × World σ

/-- The advisory text of the seconds branch. -/
def reminder : String :=
  "Friendly reminder: consider timing your code at a higher resolution"

/-- Embedding of `utils::timer` (src/Utils.h, lines 37-72). -/
def timer {ε σ : Type} (func : Func ε σ) (output_format : String := "milis")
    (timed_block_name : String := "Code") (w : World σ) : Except ε Unit × World σ :=
  -- long long duration = 0; it is assigned in each branch before it is printed
  let start_time := w.now
  match func w with
  | (Except.error e, w1) => (Except.error e, w1)
  | (Except.ok _, w1) =>
    let end_time := w1.now
    if output_format = "sec" then
      let duration_seconds := duration_cast seconds (sub64 end_time start_time)
      let duration := duration_seconds
      let w2 := w1 |>.ins "[" |>.ins "\"" |>.ins timed_block_name |>.ins "\""
        |>.ins " execution time: " |>.insInt duration |>.ins " seconds" |>.ins "]"
        |>.endl
      if duration ≤ 1 then
        (Except.ok (), w2.ins reminder)
      else
        (Except.ok (), w2)
    else if output_format = "milis" then
      let duration_second := duration_cast milliseconds (sub64 end_time start_time)
      let duration := duration_second
      (Except.ok (), w1 |>.ins "[" |>.ins "\"" |>.ins timed_block_name |>.ins "\""
        |>.ins " execution time: " |>.insInt duration |>.ins " miliseconds" |>.ins "]"
        |>.endl)
    else if output_format = "nano" then
      let duration_second := duration_cast nanoseconds (sub64 end_time start_time)
      let duration := duration_second
      (Except.ok (), w1 |>.ins "[" |>.ins "\"" |>.ins timed_block_name |>.ins "\""
        |>.ins " execution time: " |>.insInt duration |>.ins " nanoseconds" |>.ins "]"
        |>.endl)
    else
      -- no final else in the source: no branch runs, nothing is written
      (Except.ok (), w1)

/-- The report line as the specification writes it:
`["<name>" execution time: <integer> <unit-word>]`, without the newline. -/
def reportLine (name : String) (d : Int) (unitWord : String) : String :=
  "[\"" ++ name ++ "\" execution time: " ++ toString d ++ " " ++ unitWord ++ "]"

/-- A callable that returns normally after `ns` nanoseconds and does nothing else. -/
def sleepFor {ε σ : Type} (ns : Int) : Func ε σ :=
  fun w => (Except.ok (), { w with clock := w.clock + ns })

/-- A callable that throws `e` at once. -/
def throwing {ε σ : Type} (e : ε) : Func ε σ :=
  fun w => (Except.error e, w)

/-- A callable that increments a counter kept in the caller's state and takes
`ns` nanoseconds. -/
def countingWork {ε : Type} (ns : Int) : Func ε Nat :=
  fun w => (Except.ok (), { w with clock := w.clock + ns, state := w.state + 1 })

/-- An initial world: clock counter at tick `t`, nothing written yet. -/
def World.init {σ : Type} (t : Int) (s : σ) : World σ :=
  { clock := t, cout := "", state := s }

/-! ## Characterisation of `timer` -/

/-- Appending the advisory text changes a string. -/
theorem append_reminder_ne (a : String) : a ++ reminder ≠ a := by
  intro h
  have h2 := congrArg String.length h
  rw [String.length_append] at h2
  have h3 : reminder.length = 67 := by decide
  omega

/-- A throwing callable: `timer` returns the same exception and leaves the
world as the callable left it. -/
theorem timer_of_error {ε σ : Type} (func : Func ε σ) (fmt name : String)
    (w w1 : World σ) (e : ε) (h : func w = (Except.error e, w1)) :
    timer func fmt name w = (Except.error e, w1) := by
  simp only [timer, h]

/-- The seconds branch. -/
theorem timer_of_sec {ε σ : Type} (func : Func ε σ) (name : String) (w w1 : World σ)
    (h : func w = (Except.ok (), w1)) :
    timer func "sec" name w =
      (Except.ok (), w1.ins
        (reportLine name (duration_cast seconds (sub64 w1.now w.now)) "seconds" ++ "\n" ++
          (if duration_cast seconds (sub64 w1.now w.now) ≤ 1 then reminder else ""))) := by
  simp only [timer, h, World.now, if_true]
  split
  · simp only [World.ins, World.insInt, World.endl, reportLine, String.append_assoc]
    rfl
  · simp only [World.ins, World.insInt, World.endl, reportLine, String.append_assoc]
    rfl

/-- The milliseconds branch. -/
theorem timer_of_milis {ε σ : Type} (func : Func ε σ) (name : String) (w w1 : World σ)
    (h : func w = (Except.ok (), w1)) :
    timer func "milis" name w =
      (Except.ok (), w1.ins
        (reportLine name (duration_cast milliseconds (sub64 w1.now w.now)) "miliseconds" ++
          "\n")) := by
  have h1 : ¬ ("milis" = "sec") := by decide
  simp only [timer, h, World.now, h1, if_true, if_false]
  simp only [World.ins, World.insInt, World.endl, reportLine, String.append_assoc]
  rfl

/-- The nanoseconds branch. -/
theorem timer_of_nano {ε σ : Type} (func : Func ε σ) (name : String) (w w1 : World σ)
    (h : func w = (Except.ok (), w1)) :
    timer func "nano" name w =
      (Except.ok (), w1.ins
        (reportLine name (duration_cast nanoseconds (sub64 w1.now w.now)) "nanoseconds" ++
          "\n")) := by
  have h1 : ¬ ("nano" = "sec") := by decide
  have h2 : ¬ ("nano" = "milis") := by decide
  simp only [timer, h, World.now, h1, h2, if_true, if_false]
  simp only [World.ins, World.insInt, World.endl, reportLine, String.append_assoc]
  rfl

/-- No branch is taken for any other format string: `timer` behaves as the
callable alone. -/
theorem timer_of_other {ε σ : Type} (func : Func ε σ) (fmt name : String) (w : World σ)
    (h1 : fmt ≠ "sec") (h2 : fmt ≠ "milis") (h3 : fmt ≠ "nano") :
    timer func fmt name w = func w := by
  unfold timer
  rcases hf : func w with ⟨r, w1⟩
  cases r with
  | error e => rfl
  | ok u => simp only [h1, h2, h3, if_false]

/-- Whatever the format, `timer` returns what the callable returned and only
appends to what the callable left on `std::cout`. -/
theorem timer_frame {ε σ : Type} (func : Func ε σ) (fmt name : String) (w : World σ) :
    (timer func fmt name w).1 = (func w).1 ∧
    (timer func fmt name w).2.state = (func w).2.state ∧
    (timer func fmt name w).2.clock = (func w).2.clock ∧
    ∃ text, (timer func fmt name w).2.cout = (func w).2.cout ++ text := by
  rcases hf : func w with ⟨r, w1⟩
  cases r with
  | error e =>
    rw [timer_of_error func fmt name w w1 e hf]
    exact ⟨rfl, rfl, rfl, "", (String.append_empty _).symm⟩
  | ok u =>
    by_cases h1 : fmt = "sec"
    · subst h1
      rw [timer_of_sec func name w w1 hf]
      exact ⟨rfl, rfl, rfl, _, rfl⟩
    · by_cases h2 : fmt = "milis"
      · subst h2
        rw [timer_of_milis func name w w1 hf]
        exact ⟨rfl, rfl, rfl, _, rfl⟩
      · by_cases h3 : fmt = "nano"
        · subst h3
          rw [timer_of_nano func name w w1 hf]
          exact ⟨rfl, rfl, rfl, _, rfl⟩
        · rw [timer_of_other func fmt name w h1 h2 h3, hf]
          exact ⟨rfl, rfl, rfl, "", (String.append_empty _).symm⟩


/-- The report line is never empty: it starts with a bracket and a quote. -/
theorem reportLine_length_pos (name : String) (d : Int) (unitWord : String) (rest : String) :
    0 < (reportLine name d unitWord ++ rest).length := by
  have h : ("[\"").length = 2 := by decide
  simp only [reportLine, String.length_append, h]
  omega

/-! ## 64-bit tick counts -/

/-- A value in the range of `long long` is its own 64-bit representation. -/
theorem wrap64_of_range (x : Int) (h1 : -9223372036854775808 ≤ x)
    (h2 : x < 9223372036854775808) : wrap64 x = x := by
  unfold wrap64
  omega

/-- A timestamp read from the clock lies in the range of `long long`. -/
theorem now_range {σ : Type} (w : World σ) :
    -9223372036854775808 ≤ w.now ∧ w.now < 9223372036854775808 := by
  unfold World.now wrap64
  omega

/-- When the end timestamp is not earlier than the start timestamp and their
difference is representable, the 64-bit subtraction is the true difference. -/
theorem sub64_of_le (end_time start_time : Int) (hle : start_time ≤ end_time)
    (hrep : end_time - start_time < 9223372036854775808) :
    sub64 end_time start_time = end_time - start_time := by
  unfold sub64
  exact wrap64_of_range _ (by omega) hrep

/-! ## Unrecognized format strings -/

/-- C1 (counterexample): with format "ms" a callable that takes 5 ms leaves
`std::cout` empty, while format "milis" prints the miliseconds report. So it is
not true that every format outside "sec", "milis", "nano" behaves as "milis". -/
theorem timer_unrecognized_not_milis :
    (timer (sleepFor 5000000 : Func Unit Unit) "ms" "Code" (World.init 0 ())).2.cout = "" ∧
    (timer (sleepFor 5000000 : Func Unit Unit) "milis" "Code" (World.init 0 ())).2.cout =
      "[\"Code\" execution time: 5 miliseconds]\n" ∧
    ¬ (∀ (func : Func Unit Unit) (fmt name : String) (w : World Unit),
        fmt ≠ "sec" → fmt ≠ "milis" → fmt ≠ "nano" →
        timer func fmt name w = timer func "milis" name w) := by
  refine ⟨rfl, rfl, ?_⟩
  intro hall
  have h := hall (sleepFor 5000000) "ms" "Code" (World.init 0 ())
    (by decide) (by decide) (by decide)
  have h2 := congrArg (fun r => r.2.cout.length) h
  revert h2
  decide

/-- C1 (amended): for a format string other than "sec", "milis" and "nano",
`timer` writes nothing: it behaves exactly as the callable alone, so `std::cout`
is left as the callable left it. The report in whole milliseconds with the unit
word `miliseconds` is what format "milis" itself prints. -/
theorem timer_unrecognized_prints_nothing {ε σ : Type} (func : Func ε σ)
    (fmt name : String) (w : World σ)
    (h1 : fmt ≠ "sec") (h2 : fmt ≠ "milis") (h3 : fmt ≠ "nano") :
    timer func fmt name w = func w ∧
    (timer func fmt name w).2.cout = (func w).2.cout ∧
    (∀ w1, func w = (Except.ok (), w1) →
      (timer func "milis" name w).2.cout = w1.cout ++
        reportLine name (duration_cast milliseconds (sub64 w1.now w.now)) "miliseconds" ++
        "\n") := by
  have h := timer_of_other func fmt name w h1 h2 h3
  refine ⟨h, by rw [h], ?_⟩
  intro w1 hf
  rw [timer_of_milis func name w w1 hf]
  simp only [World.ins, String.append_assoc]

/-- Witness for C1 (amended) at format "ms". -/
theorem timer_unrecognized_prints_nothing_witness :
    ("ms" ≠ "sec" ∧ "ms" ≠ "milis" ∧ "ms" ≠ "nano") ∧
    (timer (sleepFor 5000000 : Func Unit Unit) "ms" "Code" (World.init 0 ())).2.cout =
      ((sleepFor 5000000 : Func Unit Unit) (World.init 0 ())).2.cout :=
  ⟨by decide,
    (timer_unrecognized_prints_nothing (sleepFor 5000000 : Func Unit Unit) "ms" "Code"
      (World.init 0 ()) (by decide) (by decide) (by decide)).2.1⟩

/-! ## Number of report lines -/

/-- C2 (counterexample): with the empty format string and a callable that
returns normally, `std::cout` stays empty: no report line is written, so the
output does not begin with a report line for any integer and unit word. -/
theorem timer_empty_format_no_report :
    (timer (sleepFor 5000000 : Func Unit Unit) "" "Code" (World.init 0 ())).2.cout = "" ∧
    ¬ ∃ (d : Int) (unitWord rest : String),
      (timer (sleepFor 5000000 : Func Unit Unit) "" "Code" (World.init 0 ())).2.cout =
        reportLine "Code" d unitWord ++ rest := by
  refine ⟨rfl, ?_⟩
  rintro ⟨d, u, rest, h⟩
  have h0 : (timer (sleepFor 5000000 : Func Unit Unit) "" "Code" (World.init 0 ())).2.cout
      = "" := rfl
  rw [h0] at h
  have h2 := congrArg String.length h
  have h3 := reportLine_length_pos "Code" d u rest
  have h4 : ("").length = 0 := rfl
  omega

/-- C2 (amended): when the callable returns normally, what `timer` appends to
`std::cout` is, for format "sec", exactly one report line in whole seconds, a
newline, and then the advisory text when the printed duration is at most 1 and
nothing otherwise; for "milis" and "nano" exactly one report line in that unit
and a newline, and nothing else; for every other format string nothing at all.
The advisory text holds no opening bracket, so it is not a second report. -/
theorem timer_one_report_line {ε σ : Type} (func : Func ε σ) (fmt name : String)
    (w w1 : World σ) (h : func w = (Except.ok (), w1)) :
    (timer func "sec" name w).2.cout = w1.cout ++
      reportLine name (duration_cast seconds (sub64 w1.now w.now)) "seconds" ++ "\n" ++
      (if duration_cast seconds (sub64 w1.now w.now) ≤ 1 then reminder else "") ∧
    (timer func "milis" name w).2.cout = w1.cout ++
      reportLine name (duration_cast milliseconds (sub64 w1.now w.now)) "miliseconds" ++
      "\n" ∧
    (timer func "nano" name w).2.cout = w1.cout ++
      reportLine name (duration_cast nanoseconds (sub64 w1.now w.now)) "nanoseconds" ++
      "\n" ∧
    (fmt ≠ "sec" → fmt ≠ "milis" → fmt ≠ "nano" →
      (timer func fmt name w).2.cout = w1.cout) ∧
    ¬ ('[' ∈ reminder.data) := by
  refine ⟨?_, ?_, ?_, ?_, by decide⟩
  · rw [timer_of_sec func name w w1 h]
    simp only [World.ins, String.append_assoc]
  · rw [timer_of_milis func name w w1 h]
    simp only [World.ins, String.append_assoc]
  · rw [timer_of_nano func name w w1 h]
    simp only [World.ins, String.append_assoc]
  · intro h1 h2 h3
    rw [timer_of_other func fmt name w h1 h2 h3, h]

/-- Witness for C2 (amended) at format "sec" and a callable that takes 0.4 s:
one report line and the advisory text. -/
theorem timer_one_report_line_witness :
    (sleepFor 400000000 : Func Unit Unit) (World.init 0 ()) =
      (Except.ok (), World.mk 400000000 "" ()) ∧
    (timer (sleepFor 400000000 : Func Unit Unit) "sec" "Code" (World.init 0 ())).2.cout =
      "" ++ reportLine "Code" (duration_cast seconds
        (sub64 (World.mk 400000000 "" ()).now (World.init 0 ()).now)) "seconds" ++ "\n" ++
      (if duration_cast seconds
        (sub64 (World.mk 400000000 "" ()).now (World.init 0 ()).now) ≤ 1
        then reminder else "") ∧
    (timer (sleepFor 400000000 : Func Unit Unit) "sec" "Code" (World.init 0 ())).2.cout =
      "[\"Code\" execution time: 0 seconds]\n" ++
      "Friendly reminder: consider timing your code at a higher resolution" :=
  ⟨rfl, (timer_one_report_line (sleepFor 400000000 : Func Unit Unit) "ms" "Code"
    (World.init 0 ()) (World.mk 400000000 "" ()) rfl).1, rfl⟩

/-! ## The advisory text of the seconds branch -/

/-- C3: for format "sec" and a callable that returns normally, the advisory
text follows the report line if and only if the whole-second duration that was
printed is at most 1, and otherwise nothing follows the report line; for
formats "milis" and "nano" nothing ever follows the report line. -/
theorem timer_reminder_iff {ε σ : Type} (func : Func ε σ) (name : String)
    (w w1 : World σ) (h : func w = (Except.ok (), w1)) :
    ((timer func "sec" name w).2.cout = w1.cout ++
        reportLine name (duration_cast seconds (sub64 w1.now w.now)) "seconds" ++ "\n" ++
        reminder ↔ duration_cast seconds (sub64 w1.now w.now) ≤ 1) ∧
    ((timer func "sec" name w).2.cout = w1.cout ++
        reportLine name (duration_cast seconds (sub64 w1.now w.now)) "seconds" ++ "\n"
        ↔ ¬ duration_cast seconds (sub64 w1.now w.now) ≤ 1) ∧
    (timer func "milis" name w).2.cout = w1.cout ++
      reportLine name (duration_cast milliseconds (sub64 w1.now w.now)) "miliseconds" ++
      "\n" ∧
    (timer func "nano" name w).2.cout = w1.cout ++
      reportLine name (duration_cast nanoseconds (sub64 w1.now w.now)) "nanoseconds" ++
      "\n" := by
  rw [timer_of_sec func name w w1 h, timer_of_milis func name w w1 h,
    timer_of_nano func name w w1 h]
  simp only [World.ins]
  refine ⟨?_, ?_, by simp only [String.append_assoc], by simp only [String.append_assoc]⟩
  · by_cases hd : duration_cast seconds (sub64 w1.now w.now) ≤ 1
    · simp only [hd, if_true, iff_true, String.append_assoc]
    · simp only [hd, if_false, iff_false, String.append_empty]
      intro heq
      have h2 := append_reminder_ne (w1.cout ++
        (reportLine name (duration_cast seconds (sub64 w1.now w.now)) "seconds" ++ "\n"))
      simp only [String.append_assoc] at heq h2
      exact h2 heq.symm
  · by_cases hd : duration_cast seconds (sub64 w1.now w.now) ≤ 1
    · simp only [hd, if_true, not_true, iff_false]
      intro heq
      have h2 := append_reminder_ne (w1.cout ++
        (reportLine name (duration_cast seconds (sub64 w1.now w.now)) "seconds" ++ "\n"))
      simp only [String.append_assoc] at heq h2
      exact h2 heq
    · simp only [hd, if_false, not_false_eq_true, iff_true, String.append_empty,
        String.append_assoc]

/-- Witness for C3 at a callable that takes 2.5 s (no advisory). -/
theorem timer_reminder_iff_witness :
    (sleepFor 2500000000 : Func Unit Unit) (World.init 0 ()) =
      (Except.ok (), World.mk 2500000000 "" ()) ∧
    ((timer (sleepFor 2500000000 : Func Unit Unit) "sec" "Code" (World.init 0 ())).2.cout =
        "" ++ reportLine "Code" (duration_cast seconds
          (sub64 (World.mk 2500000000 "" ()).now (World.init 0 ()).now)) "seconds" ++ "\n"
        ↔ ¬ duration_cast seconds
          (sub64 (World.mk 2500000000 "" ()).now (World.init 0 ()).now) ≤ 1) :=
  ⟨rfl, (timer_reminder_iff (sleepFor 2500000000 : Func Unit Unit) "Code"
    (World.init 0 ()) (World.mk 2500000000 "" ()) rfl).2.1⟩

/-! ## The 1100 ms scenario -/

/-- C4 (counterexample): a callable that takes 1,100,000,000 ns, timed with
format "sec" and name "Slow", produces the line `["Slow" execution time: 1 seconds]`
followed by the advisory text; the output is not the report line alone. -/
theorem timer_slow_prints_reminder :
    (timer (sleepFor 1100000000 : Func Unit Unit) "sec" "Slow" (World.init 0 ())).2.cout =
      "[\"Slow\" execution time: 1 seconds]\n" ++
      "Friendly reminder: consider timing your code at a higher resolution" ∧
    (timer (sleepFor 1100000000 : Func Unit Unit) "sec" "Slow" (World.init 0 ())).2.cout ≠
      "[\"Slow\" execution time: 1 seconds]\n" := by
  constructor
  · rfl
  · decide

/-- C4 (amended): when the callable takes 1,100,000,000 ns and returns
normally, `timer` with format "sec" and name "Slow" appends the line
`["Slow" execution time: 1 seconds]`, a newline, and then the advisory text. -/
theorem timer_slow_scenario {ε σ : Type} (func : Func ε σ) (w w1 : World σ)
    (h : func w = (Except.ok (), w1)) (hd : w1.now - w.now = 1100000000) :
    (timer func "sec" "Slow" w).2.cout =
      w1.cout ++ "[\"Slow\" execution time: 1 seconds]" ++ "\n" ++ reminder := by
  rw [timer_of_sec func "Slow" w w1 h, sub64, hd]
  have h1 : duration_cast seconds (wrap64 1100000000) = 1 := by decide
  simp only [h1, World.ins, le_refl, if_true, String.append_assoc]
  rfl

/-- Witness for C4 (amended) with the clock starting at tick 42. -/
theorem timer_slow_scenario_witness :
    ((sleepFor 1100000000 : Func Unit Unit) (World.init 42 ()) =
      (Except.ok (), World.mk 1100000042 "" ()) ∧
      (World.mk 1100000042 "" ()).now - (World.init 42 ()).now = 1100000000) ∧
    (timer (sleepFor 1100000000 : Func Unit Unit) "sec" "Slow" (World.init 42 ())).2.cout =
      "" ++ "[\"Slow\" execution time: 1 seconds]" ++ "\n" ++ reminder :=
  ⟨⟨rfl, by decide⟩, timer_slow_scenario (sleepFor 1100000000 : Func Unit Unit)
    (World.init 42 ()) (World.mk 1100000042 "" ()) rfl (by decide)⟩

/-! ## Text of the report line -/

/-- C5: for each of the formats "sec", "milis", "nano", every block name and a
callable that returns normally, the report appended to `std::cout` is exactly
`["` ++ name ++ `" execution time: ` ++ decimal duration ++ ` ` ++ unit word
++ `]` and a newline, with the name verbatim and the unit word `seconds`,
`miliseconds`, `nanoseconds` respectively (for "sec" the advisory text may
follow the newline). -/
theorem timer_report_text {ε σ : Type} (func : Func ε σ) (name : String)
    (w w1 : World σ) (h : func w = (Except.ok (), w1)) :
    (timer func "sec" name w).2.cout = w1.cout ++
      ("[\"" ++ name ++ "\" execution time: " ++
        toString (duration_cast seconds (sub64 w1.now w.now)) ++ " " ++ "seconds" ++ "]" ++
        "\n") ++
      (if duration_cast seconds (sub64 w1.now w.now) ≤ 1 then reminder else "") ∧
    (timer func "milis" name w).2.cout = w1.cout ++
      ("[\"" ++ name ++ "\" execution time: " ++
        toString (duration_cast milliseconds (sub64 w1.now w.now)) ++ " " ++ "miliseconds" ++
        "]" ++ "\n") ∧
    (timer func "nano" name w).2.cout = w1.cout ++
      ("[\"" ++ name ++ "\" execution time: " ++
        toString (duration_cast nanoseconds (sub64 w1.now w.now)) ++ " " ++ "nanoseconds" ++
        "]" ++ "\n") := by
  rw [timer_of_sec func name w w1 h, timer_of_milis func name w w1 h,
    timer_of_nano func name w w1 h]
  simp only [World.ins, reportLine, String.append_assoc, and_self]

/-- Witness for C5 at a name that contains quotes, a bracket and a newline. -/
theorem timer_report_text_witness :
    (sleepFor 7000000 : Func Unit Unit) (World.init 0 ()) =
      (Except.ok (), World.mk 7000000 "" ()) ∧
    (timer (sleepFor 7000000 : Func Unit Unit) "milis" "a\"]\nb" (World.init 0 ())).2.cout =
      "" ++ ("[\"" ++ "a\"]\nb" ++ "\" execution time: " ++
        toString (duration_cast milliseconds
          (sub64 (World.mk 7000000 "" ()).now (World.init 0 ()).now)) ++ " " ++ "miliseconds" ++
        "]" ++ "\n") :=
  ⟨rfl, (timer_report_text (sleepFor 7000000 : Func Unit Unit) "a\"]\nb"
    (World.init 0 ()) (World.mk 7000000 "" ()) rfl).2.1⟩

/-! ## The printed duration -/

/-- Truncation toward zero agrees with floor division on a non-negative
duration. -/
theorem duration_cast_of_nonneg (period d : Int) (hp : 0 ≤ period) (hd : 0 ≤ d) :
    duration_cast period d = d / period := by
  unfold duration_cast
  exact Int.tdiv_eq_ediv hd hp

/-- Casting nanoseconds to nanoseconds changes nothing. -/
theorem duration_cast_nanoseconds (d : Int) : duration_cast nanoseconds d = d := by
  unfold duration_cast nanoseconds
  exact Int.tdiv_one d

/-- C6 (counterexample): with start timestamp -9,000,000,000,000,000,000 and
end timestamp 9,000,000,000,000,000,000 (so end >= start) the difference
18,000,000,000,000,000,000 is not representable in 64 bits: `timer` prints
-446744073709551616 nanoseconds, respectively -446744073709 miliseconds, not
the truncating conversion of `end - start`. -/
theorem timer_duration_wraps :
    (World.init (-9000000000000000000) ()).now = -9000000000000000000 ∧
    (World.mk 9000000000000000000 "" ()).now = 9000000000000000000 ∧
    (sleepFor 18000000000000000000 : Func Unit Unit) (World.init (-9000000000000000000) ()) =
      (Except.ok (), World.mk 9000000000000000000 "" ()) ∧
    (timer (sleepFor 18000000000000000000 : Func Unit Unit) "nano" "Code"
      (World.init (-9000000000000000000) ())).2.cout =
      "[\"Code\" execution time: -446744073709551616 nanoseconds]\n" ∧
    (timer (sleepFor 18000000000000000000 : Func Unit Unit) "nano" "Code"
      (World.init (-9000000000000000000) ())).2.cout ≠
      "[\"Code\" execution time: 18000000000000000000 nanoseconds]\n" ∧
    (timer (sleepFor 18000000000000000000 : Func Unit Unit) "milis" "Code"
      (World.init (-9000000000000000000) ())).2.cout =
      "[\"Code\" execution time: -446744073709 miliseconds]\n" := by
  refine ⟨by decide, by decide, rfl, by decide, by decide, by decide⟩

/-- C6 (amended): when the end timestamp is not earlier than the start
timestamp and `end - start` is representable as a 64-bit signed integer
(`end - start < 2^63`), the integer printed is the truncating conversion of
`end - start`: the integer quotient by 1,000,000,000 for "sec", by 1,000,000
for "milis", and `end - start` itself for "nano". The quotient `q` satisfies
`q * unit ≤ end - start < (q + 1) * unit`: the remainder is dropped, never
rounded up; 1,999,999 ns gives 1 millisecond and 999,999 ns gives 0. -/
theorem timer_duration_truncates {ε σ : Type} (func : Func ε σ) (name : String)
    (w w1 : World σ) (h : func w = (Except.ok (), w1)) (hle : w.now ≤ w1.now)
    (hrep : w1.now - w.now < 9223372036854775808) :
    ((timer func "sec" name w).2.cout = w1.cout ++
        reportLine name ((w1.now - w.now) / 1000000000) "seconds" ++ "\n" ++
        (if (w1.now - w.now) / 1000000000 ≤ 1 then reminder else "") ∧
      (w1.now - w.now) / 1000000000 * 1000000000 ≤ w1.now - w.now ∧
      w1.now - w.now < ((w1.now - w.now) / 1000000000 + 1) * 1000000000) ∧
    ((timer func "milis" name w).2.cout = w1.cout ++
        reportLine name ((w1.now - w.now) / 1000000) "miliseconds" ++ "\n" ∧
      (w1.now - w.now) / 1000000 * 1000000 ≤ w1.now - w.now ∧
      w1.now - w.now < ((w1.now - w.now) / 1000000 + 1) * 1000000) ∧
    (timer func "nano" name w).2.cout = w1.cout ++
      reportLine name (w1.now - w.now) "nanoseconds" ++ "\n" ∧
    duration_cast milliseconds 1999999 = 1 ∧ duration_cast milliseconds 999999 = 0 := by
  have hd : 0 ≤ w1.now - w.now := by omega
  have hsub : sub64 w1.now w.now = w1.now - w.now := sub64_of_le _ _ hle hrep
  have hs : duration_cast seconds (w1.now - w.now) = (w1.now - w.now) / 1000000000 :=
    duration_cast_of_nonneg seconds _ (by decide) hd
  have hm : duration_cast milliseconds (w1.now - w.now)
      = (w1.now - w.now) / 1000000 :=
    duration_cast_of_nonneg milliseconds _ (by decide) hd
  rw [timer_of_sec func name w w1 h, timer_of_milis func name w w1 h,
    timer_of_nano func name w w1 h, hsub, hs, hm, duration_cast_nanoseconds]
  simp only [World.ins, String.append_assoc, true_and]
  refine ⟨⟨?_, ?_⟩, ⟨?_, ?_⟩, ?_, ?_⟩
  · omega
  · omega
  · omega
  · omega
  · decide
  · decide

/-- Witness for C6 (amended) at a callable that takes 1,999,999 ns: one
millisecond is printed. -/
theorem timer_duration_truncates_witness :
    ((sleepFor 1999999 : Func Unit Unit) (World.init 10 ()) =
        (Except.ok (), World.mk 2000009 "" ()) ∧
      (World.init 10 ()).now ≤ (World.mk 2000009 "" ()).now ∧
      (World.mk 2000009 "" ()).now - (World.init 10 ()).now < 9223372036854775808) ∧
    (timer (sleepFor 1999999 : Func Unit Unit) "milis" "Code" (World.init 10 ())).2.cout =
      "" ++ reportLine "Code"
        (((World.mk 2000009 "" ()).now - (World.init 10 ()).now) / 1000000) "miliseconds" ++
      "\n" ∧
    (timer (sleepFor 1999999 : Func Unit Unit) "milis" "Code" (World.init 10 ())).2.cout =
      "[\"Code\" execution time: 1 miliseconds]\n" :=
  ⟨⟨rfl, by decide, by decide⟩,
    (timer_duration_truncates (sleepFor 1999999 : Func Unit Unit) "Code"
      (World.init 10 ()) (World.mk 2000009 "" ()) rfl (by decide) (by decide)).2.1.1, rfl⟩

/-- C7 (counterexample): with start timestamp -9,000,000,000,000,000,000 and
end timestamp 9,000,000,000,000,000,000 the callable returns normally and the
end is not earlier than the start, yet the 64-bit difference wraps around and
format "sec" prints the negative duration -446744073. -/
theorem timer_duration_negative :
    (World.init (-9000000000000000000) ()).now ≤ (World.mk 9000000000000000000 "" ()).now ∧
    (sleepFor 18000000000000000000 : Func Unit Unit) (World.init (-9000000000000000000) ()) =
      (Except.ok (), World.mk 9000000000000000000 "" ()) ∧
    duration_cast seconds (sub64 (World.mk 9000000000000000000 "" ()).now
      (World.init (-9000000000000000000) ()).now) = -446744073 ∧
    (timer (sleepFor 18000000000000000000 : Func Unit Unit) "sec" "Code"
      (World.init (-9000000000000000000) ())).2.cout =
      "[\"Code\" execution time: -446744073 seconds]\n" ++
      "Friendly reminder: consider timing your code at a higher resolution" := by
  refine ⟨by decide, rfl, by decide, by decide⟩

/-- C7 (amended): when the callable returns normally, the end timestamp is not
earlier than the start timestamp and `end - start` is representable as a
64-bit signed integer (`end - start < 2^63`), the duration printed in the
report is a non-negative integer in each of the formats "sec", "milis" and
"nano"; for every other format string no report, hence no duration, is
printed. -/
theorem timer_duration_nonneg {ε σ : Type} (func : Func ε σ) (fmt name : String)
    (w w1 : World σ) (h : func w = (Except.ok (), w1)) (hle : w.now ≤ w1.now)
    (hrep : w1.now - w.now < 9223372036854775808) :
    (0 ≤ duration_cast seconds (sub64 w1.now w.now) ∧
      (timer func "sec" name w).2.cout = w1.cout ++
        reportLine name (duration_cast seconds (sub64 w1.now w.now)) "seconds" ++ "\n" ++
        (if duration_cast seconds (sub64 w1.now w.now) ≤ 1 then reminder else "")) ∧
    (0 ≤ duration_cast milliseconds (sub64 w1.now w.now) ∧
      (timer func "milis" name w).2.cout = w1.cout ++
        reportLine name (duration_cast milliseconds (sub64 w1.now w.now)) "miliseconds" ++
        "\n") ∧
    (0 ≤ duration_cast nanoseconds (sub64 w1.now w.now) ∧
      (timer func "nano" name w).2.cout = w1.cout ++
        reportLine name (duration_cast nanoseconds (sub64 w1.now w.now)) "nanoseconds" ++
        "\n") ∧
    (fmt ≠ "sec" → fmt ≠ "milis" → fmt ≠ "nano" →
      (timer func fmt name w).2.cout = w1.cout) := by
  have hsub : sub64 w1.now w.now = w1.now - w.now := sub64_of_le _ _ hle hrep
  have hd : 0 ≤ sub64 w1.now w.now := by omega
  refine ⟨⟨Int.tdiv_nonneg hd (by decide), ?_⟩, ⟨Int.tdiv_nonneg hd (by decide), ?_⟩,
    ⟨Int.tdiv_nonneg hd (by decide), ?_⟩, ?_⟩
  · rw [timer_of_sec func name w w1 h]
    simp only [World.ins, String.append_assoc]
  · rw [timer_of_milis func name w w1 h]
    simp only [World.ins, String.append_assoc]
  · rw [timer_of_nano func name w w1 h]
    simp only [World.ins, String.append_assoc]
  · intro h1 h2 h3
    rw [timer_of_other func fmt name w h1 h2 h3, h]

/-- Witness for C7 (amended) at format "milis" and a callable that takes
2.5 ms: the duration printed is 2. -/
theorem timer_duration_nonneg_witness :
    ((sleepFor 2500000 : Func Unit Unit) (World.init 3 ()) =
        (Except.ok (), World.mk 2500003 "" ()) ∧
      (World.init 3 ()).now ≤ (World.mk 2500003 "" ()).now ∧
      (World.mk 2500003 "" ()).now - (World.init 3 ()).now < 9223372036854775808) ∧
    (0 ≤ duration_cast milliseconds
        (sub64 (World.mk 2500003 "" ()).now (World.init 3 ()).now) ∧
      (timer (sleepFor 2500000 : Func Unit Unit) "milis" "Code" (World.init 3 ())).2.cout =
        "" ++ reportLine "Code" (duration_cast milliseconds
          (sub64 (World.mk 2500003 "" ()).now (World.init 3 ()).now)) "miliseconds" ++
        "\n") ∧
    (timer (sleepFor 2500000 : Func Unit Unit) "milis" "Code" (World.init 3 ())).2.cout =
      "[\"Code\" execution time: 2 miliseconds]\n" :=
  ⟨⟨rfl, by decide, by decide⟩,
    (timer_duration_nonneg (sleepFor 2500000 : Func Unit Unit) "ms" "Code"
      (World.init 3 ()) (World.mk 2500003 "" ()) rfl (by decide) (by decide)).2.1, rfl⟩

/-! ## The callable -/

/-- C8: if the callable throws, `timer` returns that same exception and
leaves the world exactly as the callable left it: it writes nothing to
`std::cout`, whatever the format and the name; in particular when nothing was
on `std::cout` after the callable, the output is empty. -/
theorem timer_work_throws {ε σ : Type} (func : Func ε σ) (fmt name : String)
    (w w1 : World σ) (e : ε) (h : func w = (Except.error e, w1)) :
    timer func fmt name w = (Except.error e, w1) ∧
    (timer func fmt name w).2.cout = w1.cout ∧
    (w1.cout = "" → (timer func fmt name w).2.cout = "") := by
  have ht := timer_of_error func fmt name w w1 e h
  refine ⟨ht, by rw [ht], ?_⟩
  intro hc
  rw [ht]
  exact hc

/-- Witness for C8 at a callable that throws the exception "boom". -/
theorem timer_work_throws_witness :
    (throwing "boom" : Func String Unit) (World.init 0 ()) =
      (Except.error "boom", World.init 0 ()) ∧
    timer (throwing "boom" : Func String Unit) "sec" "Code" (World.init 0 ()) =
      (Except.error "boom", World.init 0 ()) ∧
    (timer (throwing "boom" : Func String Unit) "sec" "Code" (World.init 0 ())).2.cout = "" :=
  ⟨rfl,
    (timer_work_throws (throwing "boom" : Func String Unit) "sec" "Code" (World.init 0 ())
      (World.init 0 ()) "boom" rfl).1, rfl⟩

/-- C9: for every format string and name, `timer` runs the callable exactly
once, on the world as it was before the call: its result, the caller's state
and the clock after `timer` are those of one application of the callable, and
everything `timer` writes is appended to what the callable left on
`std::cout`. In every format the start timestamp is the clock reading before
the callable and the end timestamp the reading in the world the callable left:
the number printed for "sec", "milis" and "nano" is the conversion of their
64-bit difference, and for any other format the world is left as the callable
left it. When the callable throws, the world is the one the callable left. A
callable that increments a counter leaves it incremented by exactly one. -/
theorem timer_runs_work_once {ε σ : Type} (func : Func ε σ) (fmt name : String)
    (w : World σ) :
    (timer func fmt name w).1 = (func w).1 ∧
    (timer func fmt name w).2.state = (func w).2.state ∧
    (timer func fmt name w).2.clock = (func w).2.clock ∧
    (∃ text, (timer func fmt name w).2.cout = (func w).2.cout ++ text) ∧
    (∀ w1, func w = (Except.ok (), w1) →
      timer func "sec" name w = (Except.ok (), w1.ins
        (reportLine name (duration_cast seconds (sub64 w1.now w.now)) "seconds" ++ "\n" ++
          (if duration_cast seconds (sub64 w1.now w.now) ≤ 1 then reminder else ""))) ∧
      timer func "milis" name w = (Except.ok (), w1.ins
        (reportLine name (duration_cast milliseconds (sub64 w1.now w.now)) "miliseconds" ++
          "\n")) ∧
      timer func "nano" name w = (Except.ok (), w1.ins
        (reportLine name (sub64 w1.now w.now) "nanoseconds" ++ "\n")) ∧
      (fmt ≠ "sec" → fmt ≠ "milis" → fmt ≠ "nano" →
        timer func fmt name w = (Except.ok (), w1))) ∧
    (∀ e w1, func w = (Except.error e, w1) →
      timer func fmt name w = (Except.error e, w1)) ∧
    (∀ (ns : Int) (c : World Nat),
      (timer (countingWork ns : Func ε Nat) fmt name c).2.state = c.state + 1) := by
  obtain ⟨h1, h2, h3, h4⟩ := timer_frame func fmt name w
  refine ⟨h1, h2, h3, h4, ?_, ?_, ?_⟩
  · intro w1 hf
    refine ⟨timer_of_sec func name w w1 hf, timer_of_milis func name w w1 hf, ?_, ?_⟩
    · rw [timer_of_nano func name w w1 hf, duration_cast_nanoseconds]
    · intro g1 g2 g3
      rw [timer_of_other func fmt name w g1 g2 g3, hf]
  · intro e w1 hf
    exact timer_of_error func fmt name w w1 e hf
  · intro ns c
    rw [(timer_frame (countingWork ns : Func ε Nat) fmt name c).2.1]
    rfl

/-- Witness for C9: a counter at 7 is at 8 after timing the counting callable,
and with format "milis" the number printed is the time the callable took. -/
theorem timer_runs_work_once_witness :
    (timer (countingWork 3000000 : Func Unit Nat) "ms" "Code" (World.init 0 7)).2.state =
      ((countingWork 3000000 : Func Unit Nat) (World.init 0 7)).2.state ∧
    (timer (countingWork 3000000 : Func Unit Nat) "ms" "Code" (World.init 0 7)).2.state = 8 ∧
    timer (countingWork 3000000 : Func Unit Nat) "milis" "Code" (World.init 0 7) =
      (Except.ok (), World.mk 3000000 "[\"Code\" execution time: 3 miliseconds]\n" 8) :=
  ⟨(timer_runs_work_once (countingWork 3000000 : Func Unit Nat) "ms" "Code"
    (World.init 0 7)).2.1, rfl, rfl⟩

/-! ## The documented seconds format -/

/-- C10 (the code at the failing input): with the format string " sec" that
the documentation comment lists for seconds, a callable that takes 2 s leaves
`std::cout` empty; the report in seconds is printed for "sec" without the
leading space. -/
theorem timer_documented_sec_prints_nothing :
    (timer (sleepFor 2000000000 : Func Unit Unit) " sec" "Code" (World.init 0 ())).2.cout
      = "" ∧
    (timer (sleepFor 2000000000 : Func Unit Unit) "sec" "Code" (World.init 0 ())).2.cout
      = "[\"Code\" execution time: 2 seconds]\n" := by
  constructor
  · rfl
  · rfl

end utils
